import Mathlib

/-!
Shallow embedding of `src/pyo3_extensions.rs`: newtypes `TdPyAny` and
`TdPyCallable` around a Python object reference, with Clone, Debug,
PartialEq, Serialize and Deserialize implemented by delegating into the
embedded Python interpreter.

The interpreter itself (object model, `pickle`, rich comparison,
truthiness, `repr`, type names, callability) is an external collaborator
of the repository; it is modelled here as executable Lean functions.  The
model is pinned to the concrete behaviour the repository fixes: the two
pickle byte layouts for the string "hello" appearing in `test_serde`
(protocol 3 and protocol 4) are reproduced byte for byte.  Numeric fields
of the model codec that the source does not pin (lengths of long strings,
integer payloads) are carried in single unbounded byte slots of the model
alphabet; this keeps the codec total and injective without changing
anything the source observes.
-/

/-- A Python-side exception: an exception type name and a message.
Corresponds to `PyErr` on the pyo3 side. -/
structure PyErr where
  ety : String
  msg : String
deriving DecidableEq

/-- Display form of a `PyErr`, as pyo3 renders it (used by
`map_err(S::Error::custom)` and `E::custom`, which format the error). -/
def PyErr.display (e : PyErr) : String :=
  e.ety ++ ": " ++ e.msg

/-- Model of the foreign (Python) values this adapter can wrap: the
supported primitive literal types (`None`, `bool`, `int`, `str`,
`bytes`), function objects (callable, not picklable), and pathological
user classes that exercise the failure paths the source handles:
`badEq` raises in its equality hook, `oddEq` returns from its equality
hook an object whose truthiness hook raises, `noBool` raises in its
truthiness hook, `badRepr` raises in its repr hook, and `anonType` is an
object whose type name cannot be retrieved. -/
inductive PyObj where
  | pyNone
  | pyBool (b : Bool)
  | pyInt (n : Int)
  | pyStr (s : String)
  | pyBytes (bs : List Nat)
  | pyFunction (name : String)
  | badEq (name : String)
  | oddEq (name : String)
  | noBool (name : String)
  | badRepr (name : String)
  | anonType (name : String)
deriving DecidableEq

/-- The supported primitive literal types of the spec. -/
def PyObj.primLiteral : PyObj → Bool
  | .pyNone | .pyBool _ | .pyInt _ | .pyStr _ | .pyBytes _ => true
  | _ => false

/-- Objects whose interpreter equality hook raises. -/
def PyObj.eqRaises : PyObj → Bool
  | .badEq _ => true
  | _ => false

/-- Objects whose interpreter equality hook returns a result that is not
coercible to a boolean. -/
def PyObj.eqOdd : PyObj → Bool
  | .oddEq _ => true
  | _ => false

/-- Objects on which the interpreter equality comparison behaves like a
structural comparison returning a boolean. -/
def PyObj.eqWellBehaved (o : PyObj) : Bool :=
  !(o.eqRaises || o.eqOdd)

/-- A reference to one allocated interpreter object: an allocation
address (pointer identity) together with the object value.  Corresponds
to `PyObject = Py<PyAny>`. -/
structure PyRef where
  addr : Nat
  obj : PyObj
deriving DecidableEq

/-- Newtype around a Python object reference flowing through the
dataflow: `pub(crate) struct TdPyAny(PyObject)` in the source. -/
structure TdPyAny where
  ref : PyRef
deriving DecidableEq

/-- Newtype around a Python object known to be callable:
`pub(crate) struct TdPyCallable(PyObject)` in the source. -/
structure TdPyCallable where
  ref : PyRef
deriving DecidableEq

/-- The single-quote character, used by the interpreter when quoting. -/
def squote : String :=
  (Char.ofNat 39).toString

/-- Model of the interpreter's rich comparison with `CompareOp::Eq`:
structural comparison for well-behaved objects, an exception for objects
whose equality hook raises, and a non-boolean result object for objects
whose equality hook returns one. -/
def richCompareEq (a b : PyObj) : Except PyErr PyObj :=
  if a.eqRaises || b.eqRaises then
    .error ⟨"RuntimeError", "equality hook raised"⟩
  else if a.eqOdd || b.eqOdd then
    .ok (.noBool "equality result")
  else
    .ok (.pyBool (decide (a = b)))

/-- Model of the interpreter's truthiness coercion (`is_truthy`). -/
def isTruthy : PyObj → Except PyErr Bool
  | .pyNone => .ok false
  | .pyBool b => .ok b
  | .pyInt n => .ok (decide (n ≠ 0))
  | .pyStr s => .ok (decide (s ≠ ""))
  | .pyBytes bs => .ok (decide (bs ≠ []))
  | .noBool n => .error ⟨"RuntimeError", "truthiness hook raised in " ++ n⟩
  | _ => .ok true

/-- Model of the interpreter's `repr`. -/
def pyRepr : PyObj → Except PyErr String
  | .pyNone => .ok "None"
  | .pyBool true => .ok "True"
  | .pyBool false => .ok "False"
  | .pyInt n => .ok (toString n)
  | .pyStr s => .ok (squote ++ s ++ squote)
  | .pyBytes _ => .ok "<bytes>"
  | .pyFunction n => .ok ("<function " ++ n ++ ">")
  | .badEq n => .ok ("<BadEq " ++ n ++ ">")
  | .oddEq n => .ok ("<OddEq " ++ n ++ ">")
  | .noBool n => .ok ("<NoBool " ++ n ++ ">")
  | .badRepr n => .error ⟨"RuntimeError", "repr hook raised in " ++ n⟩
  | .anonType n => .ok ("<anon " ++ n ++ ">")

/-- Model of `ob.get_type().name()`. -/
def getTypeName : PyObj → Except PyErr String
  | .pyNone => .ok "NoneType"
  | .pyBool _ => .ok "bool"
  | .pyInt _ => .ok "int"
  | .pyStr _ => .ok "str"
  | .pyBytes _ => .ok "bytes"
  | .pyFunction _ => .ok "function"
  | .badEq _ => .ok "BadEq"
  | .oddEq _ => .ok "OddEq"
  | .noBool _ => .ok "NoBool"
  | .badRepr _ => .ok "BadRepr"
  | .anonType n => .error ⟨"SystemError", "type name unavailable for " ++ n⟩

/-- Model of `ob.is_callable()`. -/
def PyObj.is_callable : PyObj → Bool
  | .pyFunction _ => true
  | _ => false

/-- Little-endian base-256 rendering of a number on `k` byte slots, as
used for the protocol-4 frame length field. -/
def natLE : Nat → Nat → List Nat
  | 0, _ => []
  | k + 1, n => n % 256 :: natLE k (n / 256)

/-- Bytes of a string in the model codec: one byte slot per character
code point (agrees with UTF-8 on the ASCII data the source pins). -/
def strBytes (s : String) : List Nat :=
  s.data.map Char.toNat

/-- Inverse rendering of `strBytes`. -/
def strOfBytes (bs : List Nat) : String :=
  ⟨bs.map Char.ofNat⟩

/-- Split a list at an exact position, failing when it is too short. -/
def splitAt? (n : Nat) (l : List Nat) : Option (List Nat × List Nat) :=
  if n ≤ l.length then some (l.take n, l.drop n) else none

/-- Error raised by the interpreter when a byte buffer is not a valid
pickle. -/
def pickleDataError : PyErr :=
  ⟨"UnpicklingError", "invalid pickle data"⟩

/-- Body of the protocol-4 pickling of an object (the opcodes after the
frame header), or the exception the pickler raises on unpicklable
objects.  The string case is pinned by `test_serde`: short-string opcode
140, one length slot, the character bytes, then memoize 148 and stop
46. -/
def bodyOf : PyObj → Except PyErr (List Nat)
  | .pyNone => .ok [78, 46]
  | .pyBool true => .ok [136, 46]
  | .pyBool false => .ok [137, 46]
  | .pyInt n => .ok (if 0 ≤ n then [74, n.toNat, 46] else [76, (-n).toNat, 46])
  | .pyStr s => .ok (140 :: (strBytes s).length :: (strBytes s ++ [148, 46]))
  | .pyBytes bs => .ok (67 :: bs.length :: (bs ++ [148, 46]))
  | .pyFunction n => .error ⟨"TypeError", "cannot pickle function " ++ n⟩
  | .badEq n => .error ⟨"TypeError", "cannot pickle object " ++ n⟩
  | .oddEq n => .error ⟨"TypeError", "cannot pickle object " ++ n⟩
  | .noBool n => .error ⟨"TypeError", "cannot pickle object " ++ n⟩
  | .badRepr n => .error ⟨"TypeError", "cannot pickle object " ++ n⟩
  | .anonType n => .error ⟨"TypeError", "cannot pickle object " ++ n⟩

/-- Model of `pickle.dumps` at the default protocol of the interpreters
the source supports (protocol 4, interpreter version at least 3.8, as
asserted by `test_serde`): magic 128, protocol byte 4, frame opcode 149,
an 8-byte little-endian frame length, then the body. -/
def dumps (o : PyObj) : Except PyErr (List Nat) :=
  (bodyOf o).map (fun body => 128 :: 4 :: 149 :: (natLE 8 body.length ++ body))

/-- Parser for a protocol-4 body; inverse of `bodyOf`. -/
def parseBody : List Nat → Except PyErr PyObj
  | [78, 46] => .ok .pyNone
  | [136, 46] => .ok (.pyBool true)
  | [137, 46] => .ok (.pyBool false)
  | [74, m, 46] => .ok (.pyInt (Int.ofNat m))
  | [76, m, 46] => .ok (.pyInt (-(Int.ofNat m)))
  | 140 :: n :: rest =>
    match splitAt? n rest with
    | some (sb, [148, 46]) => .ok (.pyStr (strOfBytes sb))
    | _ => .error pickleDataError
  | 67 :: n :: rest =>
    match splitAt? n rest with
    | some (sb, [148, 46]) => .ok (.pyBytes sb)
    | _ => .error pickleDataError
  | _ => .error pickleDataError

/-- Parser for a protocol-3 body, the older layout `test_serde` pins for
interpreters before 3.8: string opcode 88, a 4-byte little-endian
length, the character bytes, then put 113 0 and stop 46. -/
def parseBody3 : List Nat → Except PyErr PyObj
  | 88 :: a :: b :: c :: d :: rest =>
    match splitAt? (a + 256 * (b + 256 * (c + 256 * d))) rest with
    | some (sb, [113, 0, 46]) => .ok (.pyStr (strOfBytes sb))
    | _ => .error pickleDataError
  | _ => .error pickleDataError

/-- Model of `pickle.loads`: dispatches on the protocol byte after the
magic byte 128, accepting both historical layouts. -/
def loads (bs : List Nat) : Except PyErr PyObj :=
  match bs with
  | 128 :: 3 :: rest => parseBody3 rest
  | 128 :: 4 :: 149 :: rest =>
    match splitAt? 8 rest with
    | some (_, body) => parseBody body
    | none => .error pickleDataError
  | _ => .error pickleDataError

/-- Tokens of the serde data model as exercised by `serde_test` in
`test_serde`: flat value and marker tokens. -/
inductive Token where
  | bytes (bs : List Nat)
  | str (s : String)
  | i64 (n : Int)
  | boolT (b : Bool)
  | unit
  | seq (len : Option Nat)
  | map (len : Option Nat)
deriving DecidableEq

/-- Is the token the byte-string token? -/
def Token.isBytes : Token → Bool
  | .bytes _ => true
  | _ => false

/-- How serde names a token kind in an invalid-type error. -/
def Token.unexpected : Token → String
  | .bytes _ => "byte array"
  | .str _ => "string"
  | .i64 _ => "integer"
  | .boolT _ => "boolean"
  | .unit => "unit value"
  | .seq _ => "sequence"
  | .map _ => "map"

/-- Errors of the model serializer: only the custom error that
`S::Error::custom` builds from a displayed interpreter error. -/
inductive SerError where
  | custom (payload : String)
deriving DecidableEq

/-- Errors of the model deserializer: the custom error `E::custom`
builds, and serde's invalid-type error naming the unexpected token kind
and what the visitor said it was expecting. -/
inductive DeError where
  | custom (payload : String)
  | invalidType (unexp : String) (exp : String)
deriving DecidableEq

/-- Model of `py.import_bound("pickle")`: importing the pickle module,
which the interpreter resolves by name. -/
def import_bound (m : String) : Except PyErr Unit :=
  if m = "pickle" then .ok () else .error ⟨"ModuleNotFoundError", "no module named " ++ m⟩

/-- Model of `pickle.call_method1("dumps", (x,))`: runs the pickler and
wraps the buffer as an interpreter bytes object. -/
def pickle_dumps (o : PyObj) : Except PyErr PyObj :=
  (dumps o).map .pyBytes

/-- Model of `binding.downcast::<PyBytes>()`. -/
def downcastPyBytes : PyObj → Except PyErr (List Nat)
  | .pyBytes bs => .ok bs
  | _ => .error ⟨"TypeError", "downcast to bytes failed"⟩

/-- Model of `serializer.serialize_bytes` of the `serde_test`
serializer: emits the single byte-string token. -/
def serialize_bytes (bs : List Nat) : Except SerError Token :=
  .ok (.bytes bs)

/-- Embedding of `impl serde::Serialize for TdPyAny::serialize`: import
the pickle module, call dumps, downcast the result to a byte buffer, and
write it with `serialize_bytes`; each interpreter failure is converted
with `S::Error::custom` on the displayed error. -/
def TdPyAny.serialize (self : TdPyAny) : Except SerError Token :=
  match import_bound "pickle" with
  | .error e => .error (.custom e.display)
  | .ok _ =>
    match pickle_dumps self.ref.obj with
    | .error e => .error (.custom e.display)
    | .ok binding =>
      match downcastPyBytes binding with
      | .error e => .error (.custom e.display)
      | .ok bytes => serialize_bytes bytes

/-- The `expecting` message of `PickleVisitor`. -/
def PickleVisitor.expecting : String :=
  "a pickled byte array"

/-- Embedding of `PickleVisitor::visit_bytes`: unpickle the buffer and
wrap the resulting foreign reference (at a fresh allocation address)
into a `TdPyAny`; interpreter failures become `E::custom` errors. -/
def PickleVisitor.visit_bytes (fresh : Nat) (bs : List Nat) : Except DeError TdPyAny :=
  match loads bs with
  | .ok o => .ok ⟨⟨fresh, o⟩⟩
  | .error e => .error (.custom e.display)

/-- Embedding of `impl serde::Deserialize for TdPyAny::deserialize`:
`deserializer.deserialize_bytes(PickleVisitor)`.  The model deserializer
hands a byte-string token to the visitor's `visit_bytes`; for every
other token kind the visitor has only serde's default methods, which
fail with an invalid-type error naming the `expecting` message. -/
def TdPyAny.deserialize (fresh : Nat) (t : Token) : Except DeError TdPyAny :=
  match t with
  | .bytes bs => PickleVisitor.visit_bytes fresh bs
  | t => .error (.invalidType t.unexpected PickleVisitor.expecting)

/-- Abrupt process termination carrying the interpreter error that
caused it. -/
structure Fatal where
  err : PyErr
deriving DecidableEq

/-- Modelled from the spec: the `crate::try_unwrap` macro (declared
outside this module) implements the unwrap policy — an interpreter-side
failure inside an infallible trait obligation is escalated to an
unrecoverable invariant violation (abrupt process termination), never
returned or defaulted. -/
def try_unwrap : Except PyErr α → Except Fatal α
  | .ok a => .ok a
  | .error e => .error ⟨e⟩

/-- Embedding of `impl PartialEq for TdPyAny::eq`: rich-compare the two
bound objects with `CompareOp::Eq`, coerce the result with `is_truthy`,
and apply the unwrap policy to any interpreter failure. -/
def TdPyAny.beq (self other : TdPyAny) : Except Fatal Bool :=
  try_unwrap (do
    let r ← richCompareEq self.ref.obj other.ref.obj
    isTruthy r)

/-- The error type of the formatting layer: `std::fmt::Error`, a unit
struct carrying no cause. -/
structure FmtError where
deriving DecidableEq

/-- Embedding of `impl std::fmt::Debug for TdPyAny::fmt`: request the
wrapped value's repr and write it; an interpreter failure is mapped to
the bare formatting error by `map_err(|_| std::fmt::Error {})`. -/
def TdPyAny.fmt (self : TdPyAny) : Except FmtError String :=
  match pyRepr self.ref.obj with
  | .ok s => .ok s
  | .error _ => .error ⟨⟩

/-- Reference-count ledger of the interpreter: how many owned reference
units exist per allocation address. -/
def Ledger : Type :=
  Nat → Nat

/-- Model of `clone_ref` at the ledger level: claim one more
reference-count unit for an address. -/
def bump (l : Ledger) (a : Nat) : Ledger :=
  fun x => if x = a then l x + 1 else l x

/-- Embedding of the derived `Clone` for `TdPyAny` (`Py::clone_ref`):
the clone shares the same underlying reference, and one more
reference-count unit is claimed. -/
def TdPyAny.clone (l : Ledger) (self : TdPyAny) : Ledger × TdPyAny :=
  (bump l self.ref.addr, ⟨self.ref⟩)

/-- Dropping a handle releases its reference-count unit. -/
def TdPyAny.dropHandle (l : Ledger) (self : TdPyAny) : Ledger :=
  fun x => if x = self.ref.addr then l x - 1 else l x

/-- A handle is live while the interpreter still holds reference units
for its address. -/
def TdPyAny.live (l : Ledger) (self : TdPyAny) : Prop :=
  0 < l self.ref.addr

/-- Embedding of `impl FromPyObject for TdPyCallable::extract_bound`:
wrap the object (claiming one reference-count unit via `clone_ref`) when
it is callable, otherwise raise a `PyTypeError` whose message quotes the
type name when it is retrievable and is generic otherwise. -/
def TdPyCallable.extract_bound (l : Ledger) (ob : PyRef) : Except PyErr (Ledger × TdPyCallable) :=
  if ob.obj.is_callable then
    .ok (bump l ob.addr, ⟨ob⟩)
  else
    match getTypeName ob.obj with
    | .ok type_name =>
      .error ⟨"TypeError", squote ++ type_name ++ squote ++ " object is not callable"⟩
    | .error _ => .error ⟨"TypeError", "object is not callable"⟩

theorem natLE_length (k n : Nat) : (natLE k n).length = k := by
  induction k generalizing n with
  | zero => rfl
  | succ k ih => simp [natLE, ih]

theorem take_len_append (a b : List Nat) : (a ++ b).take a.length = a := by
  induction a with
  | nil => simp
  | cons x xs ih => simp [ih]

theorem drop_len_append (a b : List Nat) : (a ++ b).drop a.length = b := by
  induction a with
  | nil => simp
  | cons x xs ih => simp [ih]

theorem splitAt?_append (a b : List Nat) : splitAt? a.length (a ++ b) = some (a, b) := by
  have h : a.length ≤ (a ++ b).length := by
    simp [List.length_append]
  simp [splitAt?, h, take_len_append, drop_len_append]

theorem splitAt?_natLE8 (x : Nat) (b : List Nat) :
    splitAt? 8 (natLE 8 x ++ b) = some (natLE 8 x, b) := by
  have h := splitAt?_append (natLE 8 x) b
  rwa [natLE_length] at h

theorem strOfBytes_strBytes (s : String) : strOfBytes (strBytes s) = s := by
  cases s with
  | mk data =>
    simp [strOfBytes, strBytes, List.map_map, Function.comp_def, Char.ofNat_toNat]

theorem loads_frame (x : Nat) (body : List Nat) :
    loads (128 :: 4 :: 149 :: (natLE 8 x ++ body)) = parseBody body := by
  simp [loads, splitAt?_natLE8]

theorem parseBody_str (sb : List Nat) :
    parseBody (140 :: sb.length :: (sb ++ [148, 46])) = .ok (.pyStr (strOfBytes sb)) := by
  have h := splitAt?_append sb [148, 46]
  simp [parseBody, h]

theorem parseBody_bytes (sb : List Nat) :
    parseBody (67 :: sb.length :: (sb ++ [148, 46])) = .ok (.pyBytes sb) := by
  have h := splitAt?_append sb [148, 46]
  simp [parseBody, h]

/-- The model unpickler inverts the model pickler on every picklable
object. -/
theorem loads_dumps (o : PyObj) (bs : List Nat) (h : dumps o = .ok bs) :
    loads bs = .ok o := by
  cases o with
  | pyNone =>
    simp [dumps, bodyOf, Except.map] at h
    subst h
    simp [loads_frame, parseBody]
  | pyBool b =>
    cases b <;> simp [dumps, bodyOf, Except.map] at h <;> subst h <;> simp [loads_frame, parseBody]
  | pyInt n =>
    by_cases hn : 0 ≤ n
    · simp [dumps, bodyOf, hn, Except.map] at h
      subst h
      simp [loads_frame, parseBody, Int.toNat_of_nonneg hn]
    · simp [dumps, bodyOf, hn, Except.map] at h
      subst h
      have hneg : (0 : Int) ≤ -n := by omega
      simp [loads_frame, parseBody, Int.toNat_of_nonneg hneg]
  | pyStr s =>
    simp [dumps, bodyOf, Except.map] at h
    subst h
    rw [loads_frame, parseBody_str, strOfBytes_strBytes]
  | pyBytes b =>
    simp [dumps, bodyOf, Except.map] at h
    subst h
    rw [loads_frame, parseBody_bytes]
  | pyFunction n => simp [dumps, bodyOf, Except.map] at h
  | badEq n => simp [dumps, bodyOf, Except.map] at h
  | oddEq n => simp [dumps, bodyOf, Except.map] at h
  | noBool n => simp [dumps, bodyOf, Except.map] at h
  | badRepr n => simp [dumps, bodyOf, Except.map] at h
  | anonType n => simp [dumps, bodyOf, Except.map] at h

theorem primLiteral_eqWellBehaved (o : PyObj) (h : o.primLiteral = true) :
    o.eqWellBehaved = true := by
  cases o <;> simp_all [PyObj.primLiteral, PyObj.eqWellBehaved, PyObj.eqRaises, PyObj.eqOdd]

theorem richCompareEq_wb (o o' : PyObj) (h : o.eqWellBehaved = true)
    (h' : o'.eqWellBehaved = true) :
    richCompareEq o o' = .ok (.pyBool (decide (o = o'))) := by
  simp [PyObj.eqWellBehaved] at h h'
  simp [richCompareEq, h.1, h.2, h'.1, h'.2]

theorem beq_mk_wb (a1 a2 : Nat) (o o' : PyObj) (h : o.eqWellBehaved = true)
    (h' : o'.eqWellBehaved = true) :
    TdPyAny.beq ⟨⟨a1, o⟩⟩ ⟨⟨a2, o'⟩⟩ = .ok (decide (o = o')) := by
  have hr := richCompareEq_wb o o' h h'
  simp only [TdPyAny.beq, hr]
  rfl

theorem dumps_prim_ok (o : PyObj) (h : o.primLiteral = true) :
    ∃ bs, dumps o = .ok bs := by
  cases o with
  | pyBool b => cases b <;> exact ⟨_, rfl⟩
  | pyNone => exact ⟨_, rfl⟩
  | pyInt n => exact ⟨_, rfl⟩
  | pyStr s => exact ⟨_, rfl⟩
  | pyBytes bs => exact ⟨_, rfl⟩
  | pyFunction n => simp [PyObj.primLiteral] at h
  | badEq n => simp [PyObj.primLiteral] at h
  | oddEq n => simp [PyObj.primLiteral] at h
  | noBool n => simp [PyObj.primLiteral] at h
  | badRepr n => simp [PyObj.primLiteral] at h
  | anonType n => simp [PyObj.primLiteral] at h

theorem serialize_of_dumps (h : TdPyAny) (bs : List Nat) (hd : dumps h.ref.obj = .ok bs) :
    TdPyAny.serialize h = .ok (.bytes bs) := by
  simp [TdPyAny.serialize, import_bound, pickle_dumps, hd, Except.map, downcastPyBytes,
    serialize_bytes]

theorem beq_eq (a b : TdPyAny) :
    TdPyAny.beq a b = try_unwrap ((richCompareEq a.ref.obj b.ref.obj).bind isTruthy) :=
  rfl

theorem except_bind_ok (x : α) (f : α → Except PyErr β) : (Except.ok x).bind f = f x :=
  rfl

theorem except_bind_error (e : PyErr) (f : α → Except PyErr β) :
    (Except.error e).bind f = (.error e : Except PyErr β) :=
  rfl

/-- The protocol-3 pickling of the string "hello", as pinned by
`test_serde` for interpreter versions before 3.8. -/
def hello3 : List Nat :=
  [128, 3, 88, 5, 0, 0, 0, 104, 101, 108, 108, 111, 113, 0, 46]

/-- The protocol-4 pickling of the string "hello", as pinned by
`test_serde` for interpreter versions 3.8 and later. -/
def hello4 : List Nat :=
  [128, 4, 149, 9, 0, 0, 0, 0, 0, 0, 0, 140, 5, 104, 101, 108, 108, 111, 148, 46]

/-- C1: for every foreign value constructible from the supported
primitive literal types, deserializing the bytes produced by serializing
a handle wrapping it succeeds and yields a handle equal to the original
handle under the PartialEq equality contract. -/
theorem td_serde_round_trip (o : PyObj) (addr fresh : Nat) (hp : o.primLiteral = true) :
    ∃ bs : List Nat,
      TdPyAny.serialize ⟨⟨addr, o⟩⟩ = .ok (.bytes bs) ∧
      TdPyAny.deserialize fresh (.bytes bs) = .ok ⟨⟨fresh, o⟩⟩ ∧
      TdPyAny.beq ⟨⟨fresh, o⟩⟩ ⟨⟨addr, o⟩⟩ = .ok true := by
  obtain ⟨bs, hd⟩ := dumps_prim_ok o hp
  refine ⟨bs, serialize_of_dumps _ bs hd, ?_, ?_⟩
  · simp [TdPyAny.deserialize, PickleVisitor.visit_bytes, loads_dumps o bs hd]
  · have hw := primLiteral_eqWellBehaved o hp
    have hb := beq_mk_wb fresh addr o o hw hw
    simpa using hb

theorem td_serde_round_trip_witness :
    (PyObj.pyStr "hello").primLiteral = true ∧
    ∃ bs : List Nat,
      TdPyAny.serialize ⟨⟨0, .pyStr "hello"⟩⟩ = .ok (.bytes bs) ∧
      TdPyAny.deserialize 1 (.bytes bs) = .ok ⟨⟨1, .pyStr "hello"⟩⟩ ∧
      TdPyAny.beq ⟨⟨1, .pyStr "hello"⟩⟩ ⟨⟨0, .pyStr "hello"⟩⟩ = .ok true :=
  ⟨rfl, td_serde_round_trip (.pyStr "hello") 0 1 rfl⟩

/-- C2: the PartialEq equality of two handles is decided by the
interpreter rich comparison of the wrapped objects coerced by
truthiness, not by pointer identity: it does not depend on the
allocation addresses, handles wrapping separately allocated equal
contents compare equal, and handles wrapping different contents compare
unequal (for operands whose interpreter comparison is well behaved,
failure of the comparison itself being the separately specified fatal
path). -/
theorem td_eq_structural (a1 a2 : Nat) (o o' : PyObj) (ha : a1 ≠ a2)
    (h : o.eqWellBehaved = true) (h' : o'.eqWellBehaved = true) :
    (TdPyAny.beq ⟨⟨a1, o⟩⟩ ⟨⟨a2, o'⟩⟩ = .ok true ↔ o = o') ∧
    (TdPyAny.beq ⟨⟨a1, o⟩⟩ ⟨⟨a2, o'⟩⟩ = .ok false ↔ o ≠ o') ∧
    (∀ b1 b2 : Nat, TdPyAny.beq ⟨⟨a1, o⟩⟩ ⟨⟨a2, o'⟩⟩ = TdPyAny.beq ⟨⟨b1, o⟩⟩ ⟨⟨b2, o'⟩⟩) := by
  have e := beq_mk_wb a1 a2 o o' h h'
  refine ⟨?_, ?_, fun b1 b2 => ?_⟩
  · simp [e]
  · simp [e]
  · rw [e, beq_mk_wb b1 b2 o o' h h']

theorem td_eq_structural_witness :
    TdPyAny.beq ⟨⟨0, .pyStr "a"⟩⟩ ⟨⟨1, .pyStr "a"⟩⟩ = .ok true ∧
    TdPyAny.beq ⟨⟨0, .pyStr "a"⟩⟩ ⟨⟨1, .pyInt 2⟩⟩ = .ok false :=
  ⟨((td_eq_structural 0 1 (.pyStr "a") (.pyStr "a") (by decide) rfl rfl).1).mpr rfl,
   ((td_eq_structural 0 1 (.pyStr "a") (.pyInt 2) (by decide) rfl rfl).2.1).mpr (by decide)⟩

/-- C3: extracting a `TdPyCallable` from a callable object succeeds and
claims one reference-count unit; extracting from a non-callable object
raises a type error whose message quotes the type name when retrievable
and is the generic message otherwise. -/
theorem td_callable_extract_spec (l : Ledger) (ob : PyRef) :
    (ob.obj.is_callable = true →
      TdPyCallable.extract_bound l ob = .ok (bump l ob.addr, ⟨ob⟩) ∧
      bump l ob.addr ob.addr = l ob.addr + 1) ∧
    (ob.obj.is_callable = false → ∀ tn, getTypeName ob.obj = .ok tn →
      TdPyCallable.extract_bound l ob =
        .error ⟨"TypeError", squote ++ tn ++ squote ++ " object is not callable"⟩) ∧
    (ob.obj.is_callable = false → ∀ e, getTypeName ob.obj = .error e →
      TdPyCallable.extract_bound l ob = .error ⟨"TypeError", "object is not callable"⟩) := by
  refine ⟨fun hc => ⟨?_, ?_⟩, fun hc tn htn => ?_, fun hc e he => ?_⟩
  · simp [TdPyCallable.extract_bound, hc]
  · simp [bump]
  · simp [TdPyCallable.extract_bound, hc, htn]
  · simp [TdPyCallable.extract_bound, hc, he]

theorem td_callable_extract_witness :
    (TdPyCallable.extract_bound (fun _ => 1) ⟨0, .pyFunction "f"⟩ =
        .ok (bump (fun _ => 1) 0, ⟨⟨0, .pyFunction "f"⟩⟩) ∧
      bump (fun _ => 1) 0 0 = 2) ∧
    TdPyCallable.extract_bound (fun _ => 1) ⟨0, .pyInt 3⟩ =
      .error ⟨"TypeError", squote ++ "int" ++ squote ++ " object is not callable"⟩ ∧
    TdPyCallable.extract_bound (fun _ => 1) ⟨0, .anonType "a"⟩ =
      .error ⟨"TypeError", "object is not callable"⟩ :=
  ⟨(td_callable_extract_spec (fun _ => 1) ⟨0, .pyFunction "f"⟩).1 rfl,
   (td_callable_extract_spec (fun _ => 1) ⟨0, .pyInt 3⟩).2.1 rfl "int" rfl,
   (td_callable_extract_spec (fun _ => 1) ⟨0, .anonType "a"⟩).2.2 rfl
     ⟨"SystemError", "type name unavailable for " ++ "a"⟩ rfl⟩

/-- C4: the decode path accepts the byte buffers of both historical
pickling-protocol layouts of the string "hello"; each decodes
successfully to a handle equal to a handle wrapping "hello". -/
theorem td_decode_both_protocols :
    TdPyAny.deserialize 0 (.bytes hello3) = .ok ⟨⟨0, .pyStr "hello"⟩⟩ ∧
    TdPyAny.deserialize 0 (.bytes hello4) = .ok ⟨⟨0, .pyStr "hello"⟩⟩ ∧
    TdPyAny.beq ⟨⟨0, .pyStr "hello"⟩⟩ ⟨⟨1, .pyStr "hello"⟩⟩ = .ok true := by
  refine ⟨rfl, rfl, ?_⟩
  simpa using beq_mk_wb 0 1 (.pyStr "hello") (.pyStr "hello") rfl rfl

/-- C5: an interpreter failure at any of the three steps of
serialization (importing the pickle module, the dumps call, or the
downcast of the result to a byte buffer) makes serialize return the
custom serialization error carrying the displayed interpreter error,
rather than panicking or emitting a buffer. -/
theorem td_serialize_error_propagation (h : TdPyAny) (e : PyErr)
    (hf : import_bound "pickle" = .error e ∨
      pickle_dumps h.ref.obj = .error e ∨
      ∃ b, pickle_dumps h.ref.obj = .ok b ∧ downcastPyBytes b = .error e) :
    TdPyAny.serialize h = .error (.custom e.display) := by
  rcases hf with h1 | h2 | ⟨b, hb, hd⟩
  · simp [import_bound] at h1
  · simp [TdPyAny.serialize, import_bound, h2]
  · simp [TdPyAny.serialize, import_bound, hb, hd]

theorem td_serialize_error_propagation_witness :
    TdPyAny.serialize ⟨⟨0, .pyFunction "f"⟩⟩ =
      .error (.custom (PyErr.display ⟨"TypeError", "cannot pickle function " ++ "f"⟩)) :=
  td_serialize_error_propagation ⟨⟨0, .pyFunction "f"⟩⟩ _ (Or.inr (Or.inl rfl))

/-- C6: when the rich comparison inside the equality check fails, or its
result cannot be coerced to a boolean, the equality check escalates to
the fatal unwrap policy carrying that interpreter error; a boolean is
returned only when both interpreter steps succeeded (never a default). -/
theorem td_eq_failure_fatal (a b : TdPyAny) :
    (∀ e, richCompareEq a.ref.obj b.ref.obj = .error e → TdPyAny.beq a b = .error ⟨e⟩) ∧
    (∀ r e, richCompareEq a.ref.obj b.ref.obj = .ok r → isTruthy r = .error e →
      TdPyAny.beq a b = .error ⟨e⟩) ∧
    (∀ v, TdPyAny.beq a b = .ok v →
      ∃ r, richCompareEq a.ref.obj b.ref.obj = .ok r ∧ isTruthy r = .ok v) := by
  refine ⟨fun e he => ?_, fun r e hr ht => ?_, fun v hv => ?_⟩
  · rw [beq_eq, he]
    rfl
  · rw [beq_eq, hr, except_bind_ok, ht]
    rfl
  · rw [beq_eq] at hv
    cases hrc : richCompareEq a.ref.obj b.ref.obj with
    | error e =>
      rw [hrc, except_bind_error] at hv
      exact absurd hv (by simp [try_unwrap])
    | ok r =>
      rw [hrc, except_bind_ok] at hv
      cases hit : isTruthy r with
      | error e =>
        rw [hit] at hv
        exact absurd hv (by simp [try_unwrap])
      | ok w =>
        rw [hit] at hv
        refine ⟨r, rfl, ?_⟩
        rw [hit]
        simpa [try_unwrap] using hv

theorem td_eq_failure_fatal_witness :
    TdPyAny.beq ⟨⟨0, .badEq "E"⟩⟩ ⟨⟨1, .pyNone⟩⟩ =
      .error ⟨⟨"RuntimeError", "equality hook raised"⟩⟩ ∧
    TdPyAny.beq ⟨⟨0, .oddEq "O"⟩⟩ ⟨⟨1, .pyNone⟩⟩ =
      .error ⟨⟨"RuntimeError", "truthiness hook raised in " ++ "equality result"⟩⟩ :=
  ⟨(td_eq_failure_fatal ⟨⟨0, .badEq "E"⟩⟩ ⟨⟨1, .pyNone⟩⟩).1 _ rfl,
   (td_eq_failure_fatal ⟨⟨0, .oddEq "O"⟩⟩ ⟨⟨1, .pyNone⟩⟩).2.1 (.noBool "equality result") _ rfl rfl⟩

/-- C7: debug formatting returns exactly the wrapped value's interpreter
repr as a string, and when the interpreter raises while computing the
repr, formatting fails with the formatting-layer error, a type that can
carry no structured cause. -/
theorem td_debug_format (h : TdPyAny) :
    (∀ s, pyRepr h.ref.obj = .ok s → TdPyAny.fmt h = .ok s) ∧
    (∀ e, pyRepr h.ref.obj = .error e → TdPyAny.fmt h = .error ⟨⟩) ∧
    (∀ e e' : FmtError, e = e') := by
  refine ⟨fun s hs => ?_, fun e he => ?_, fun e e' => by cases e; cases e'; rfl⟩
  · simp [TdPyAny.fmt, hs]
  · simp [TdPyAny.fmt, he]

theorem td_debug_format_witness :
    TdPyAny.fmt ⟨⟨0, .pyStr "hello"⟩⟩ = .ok (squote ++ "hello" ++ squote) ∧
    TdPyAny.fmt ⟨⟨0, .badRepr "R"⟩⟩ = .error ⟨⟩ :=
  ⟨(td_debug_format ⟨⟨0, .pyStr "hello"⟩⟩).1 _ rfl,
   (td_debug_format ⟨⟨0, .badRepr "R"⟩⟩).2.1 ⟨"RuntimeError", "repr hook raised in " ++ "R"⟩ rfl⟩

/-- C8: the serialized wire form of a handle is exactly the raw byte
buffer produced by the interpreter pickler, emitted as a single
byte-string token with no framing, versioning or length prefix added by
this layer. -/
theorem td_wire_form_raw_pickle (h : TdPyAny) (bs : List Nat)
    (hd : dumps h.ref.obj = .ok bs) :
    TdPyAny.serialize h = .ok (.bytes bs) :=
  serialize_of_dumps h bs hd

theorem td_wire_form_raw_pickle_witness :
    TdPyAny.serialize ⟨⟨0, .pyNone⟩⟩ =
      .ok (.bytes [128, 4, 149, 2, 0, 0, 0, 0, 0, 0, 0, 78, 46]) :=
  td_wire_form_raw_pickle ⟨⟨0, .pyNone⟩⟩ _ rfl

/-- C9: cloning a live handle yields a handle sharing the same
underlying reference, equal to the original under the PartialEq
contract, with one more reference-count unit claimed; dropping one of
the two afterwards leaves the other live. -/
theorem td_clone_spec (l : Ledger) (h : TdPyAny) (hlive : TdPyAny.live l h)
    (hwb : h.ref.obj.eqWellBehaved = true) :
    TdPyAny.beq (TdPyAny.clone l h).2 h = .ok true ∧
    (TdPyAny.clone l h).2 = h ∧
    (TdPyAny.clone l h).1 h.ref.addr = l h.ref.addr + 1 ∧
    TdPyAny.live (TdPyAny.dropHandle (TdPyAny.clone l h).1 h) (TdPyAny.clone l h).2 := by
  obtain ⟨⟨a, o⟩⟩ := h
  simp only [TdPyAny.live] at hlive
  refine ⟨?_, rfl, ?_, ?_⟩
  · have hb := beq_mk_wb a a o o hwb hwb
    simpa using hb
  · simp [TdPyAny.clone, bump]
  · simp only [TdPyAny.live, TdPyAny.dropHandle, TdPyAny.clone, bump]
    simp
    omega

theorem td_clone_spec_witness :
    TdPyAny.beq (TdPyAny.clone (fun _ => 1) ⟨⟨0, .pyInt 3⟩⟩).2 ⟨⟨0, .pyInt 3⟩⟩ = .ok true ∧
    (TdPyAny.clone (fun _ => 1) ⟨⟨0, .pyInt 3⟩⟩).2 = ⟨⟨0, .pyInt 3⟩⟩ ∧
    (TdPyAny.clone (fun _ => 1) ⟨⟨0, .pyInt 3⟩⟩).1 0 = 2 ∧
    TdPyAny.live
      (TdPyAny.dropHandle (TdPyAny.clone (fun _ => 1) ⟨⟨0, .pyInt 3⟩⟩).1 ⟨⟨0, .pyInt 3⟩⟩)
      (TdPyAny.clone (fun _ => 1) ⟨⟨0, .pyInt 3⟩⟩).2 :=
  td_clone_spec (fun _ => 1) ⟨⟨0, .pyInt 3⟩⟩ Nat.one_pos rfl

/-- C10: the deserializer requests bytes and its visitor implements only
the byte-visiting case, so every non-byte input token is rejected with
an invalid-type error naming the visitor expectation, never turned into
a handle. -/
theorem td_deserialize_rejects_non_bytes (fresh : Nat) (t : Token) (ht : t.isBytes = false) :
    TdPyAny.deserialize fresh t = .error (.invalidType t.unexpected PickleVisitor.expecting) := by
  cases t <;> simp_all [Token.isBytes, TdPyAny.deserialize]

theorem td_deserialize_rejects_non_bytes_witness :
    TdPyAny.deserialize 0 (.i64 7) = .error (.invalidType "integer" PickleVisitor.expecting) :=
  td_deserialize_rejects_non_bytes 0 (.i64 7) rfl
